import Mathlib

/-!
Verification of `dotastats/models.py`: a shallow embedding of the data model
and its operations, with theorems about the freshness policy, ingestion
constructors, filtering predicates and the sequence cursor.

Timestamps and durations are embedded as `Int` (seconds); database tables are
embedded as Lean lists of rows; Django querysets become list operations
(`filter`, `insertionSort`, `take`, `head?`).
-/

/-- Row of the `SteamPlayer` table (models.py lines 41-49). -/
structure SteamPlayer where
  steamid : Int
  last_refresh : Int
  personaname : String
  profileurl : String
  avatar : String
  avatarmedium : String
  avatarfull : String
  lastlogoff : Option Int
deriving DecidableEq

/-- Ordering used by `order_by ( last_refresh )` on the player table. -/
def playerLe (a b : SteamPlayer) : Prop :=
  a.last_refresh ≤ b.last_refresh

instance : DecidableRel playerLe :=
  fun a b => inferInstanceAs (Decidable (a.last_refresh ≤ b.last_refresh))

instance : IsTotal SteamPlayer playerLe :=
  ⟨fun a b => Int.le_total a.last_refresh b.last_refresh⟩

instance : IsTrans SteamPlayer playerLe :=
  ⟨fun _ _ _ h1 h2 => Int.le_trans h1 h2⟩

/-- `SteamPlayer.get_refresh` (models.py line 110): filter rows with
`last_refresh` < now - PLAYER_FRESHNESS, order by `last_refresh` ascending,
keep at most 100. -/
def SteamPlayer.get_refresh (rows : List SteamPlayer) (now ttl : Int) : List SteamPlayer :=
  ((rows.filter (fun p => decide (p.last_refresh < now - ttl))).insertionSort playerLe).take 100

/-- Row of the `MatchDetails` table (models.py lines 238-257). -/
structure MatchDetails where
  match_id : Int
  last_refresh : Int
  match_seq_num : Int
  season : Int
  radiant_win : Bool
  duration : Int
  start_time : Int
  tower_status_radiant : Int
  tower_status_dire : Int
  barracks_status_radiant : Int
  barracks_status_dire : Int
  cluster : Int
  first_blood_time : Int
  lobby_type : Int
  human_players : Int
  leagueid : Int
  positive_votes : Int
  negative_votes : Int
  game_mode : Int
deriving DecidableEq

/-- Ordering used by `order_by ( last_refresh )` on the match table. -/
def matchLe (a b : MatchDetails) : Prop :=
  a.last_refresh ≤ b.last_refresh

instance : DecidableRel matchLe :=
  fun a b => inferInstanceAs (Decidable (a.last_refresh ≤ b.last_refresh))

instance : IsTotal MatchDetails matchLe :=
  ⟨fun a b => Int.le_total a.last_refresh b.last_refresh⟩

instance : IsTrans MatchDetails matchLe :=
  ⟨fun _ _ _ h1 h2 => Int.le_trans h1 h2⟩

/-- The Q-expression inside `MatchDetails.exclude_low_priority` (models.py
line 265): `lobby_type = 4`, or fewer than 10 human players, or duration
under 480 seconds, or both tower-status masks equal to 2047. -/
def MatchDetails.low_priority (m : MatchDetails) : Bool :=
  decide (m.lobby_type = 4) || decide (m.human_players < 10) || decide (m.duration < 480)
    || (decide (m.tower_status_dire = 2047) && decide (m.tower_status_radiant = 2047))

/-- `MatchDetails.exclude_low_priority` (models.py lines 259-265): keep only
rows not matching the low-priority Q-expression. -/
def MatchDetails.exclude_low_priority (rows : List MatchDetails) : List MatchDetails :=
  rows.filter (fun m => ! m.low_priority)

/-- `MatchDetails.get_refresh` (models.py lines 267-278): filter rows with
`last_refresh` < now - MATCH_FRESHNESS, order by `last_refresh` ascending,
return element 0, or `none` on IndexError. -/
def MatchDetails.get_refresh (rows : List MatchDetails) (now ttl : Int) : Option MatchDetails :=
  ((rows.filter (fun m => decide (m.last_refresh < now - ttl))).insertionSort matchLe).head?

/-- `get_game_type` (models.py lines 192-220). -/
def get_game_type (game_mode : Int) : String :=
  if game_mode = 1 then "All Pick"
  else if game_mode = 2 then "Captain's Mode"
  else if game_mode = 3 then "Random Draft"
  else if game_mode = 4 then "Single Draft"
  else if game_mode = 5 then "All Random"
  else if game_mode = 6 then "Death Mode"
  else if game_mode = 7 then "Diretide"
  else if game_mode = 8 then "Reverse Captain's Mode"
  else if game_mode = 9 then "The Greeviling"
  else if game_mode = 10 then "Tutorial"
  else if game_mode = 11 then "Mid Only"
  else if game_mode = 12 then "Least Played"
  else if game_mode = 13 then "New Player Pool"
  else toString game_mode

/-- `get_lobby_type` (models.py lines 222-236). -/
def get_lobby_type (lobby_type : Int) : String :=
  if lobby_type = 0 then "Public Match"
  else if lobby_type = 1 then "Practice Match"
  else if lobby_type = 2 then "Tournament Match"
  else if lobby_type = 3 then "Tutorial"
  else if lobby_type = 4 then "Co-op Bot Match"
  else if lobby_type = 5 then "Team Match"
  else toString lobby_type

namespace steamapi

/-- Modelled from the spec: the Identity Resolver lives in
`dotastats.json.steamapi`, which is not among the repository files given;
the spec states that a fixed numeric offset converts a 32-bit in-game
account number to the 64-bit platform identifier. -/
def steamID64Offset : Int := 76561197960265728

/-- Modelled from the spec: `steamapi.convertAccountNumbertoSteam64`
produces the equivalent 64-bit platform identifier, or a null identity
when the account number is absent (a bot/anonymous slot). -/
def convertAccountNumbertoSteam64 : Option Int → Option Int
  | none => none
  | some a => some (a + steamID64Offset)

/-- Modelled from the spec: the inverse conversion, from the 64-bit
platform identifier back to the 32-bit in-game account number, subtracting
the same fixed offset; absent input stays absent. -/
def convertSteam64toAccountNumber : Option Int → Option Int
  | none => none
  | some s => some (s - steamID64Offset)

end steamapi

/-- One participant record of a match-history (discovery) summary payload,
with the fields `MatchHistoryQueuePlayers.from_json_response` reads:
`account_id` optional, `player_slot` and `hero_id` required. -/
structure QueuePlayerJson where
  account_id : Option Int
  player_slot : Int
  hero_id : Int
deriving DecidableEq

/-- Row of the `MatchHistoryQueuePlayers` table (models.py lines 172-181);
the foreign keys are embedded as the referenced primary-key values. -/
structure MatchHistoryQueuePlayers where
  match_history_queue : Int
  account_id_id : Option Int
  player_slot : Int
  hero_id_id : Int
  is_bot : Bool
deriving DecidableEq

/-- `MatchHistoryQueuePlayers.from_json_response` (models.py lines 183-190):
constructs a queue-participant row; `account_id` is converted to the 64-bit
space, and `is_bot` is true exactly when `account_id` is absent. There is no
special case for `hero_id = 0`: a row is built for every record. -/
def MatchHistoryQueuePlayers.from_json_response (match_history_queue : Int)
    (json : QueuePlayerJson) : MatchHistoryQueuePlayers :=
  { match_history_queue := match_history_queue
    account_id_id := steamapi.convertAccountNumbertoSteam64 json.account_id
    player_slot := json.player_slot
    hero_id_id := json.hero_id
    is_bot := if json.account_id = none then true else false }

/-- One participant record of a full match-detail payload, with the fields
`MatchDetailsPlayerEntry.from_json_response` reads; `account_id`,
`leaver_status`, `ability_upgrades` and `additional_units` are optional,
the rest required. -/
structure PlayerDetailJson where
  account_id : Option Int
  player_slot : Int
  hero_id : Int
  item_0 : Int
  item_1 : Int
  item_2 : Int
  item_3 : Int
  item_4 : Int
  item_5 : Int
  kills : Int
  deaths : Int
  assists : Int
  leaver_status : Option Int
  gold : Int
  last_hits : Int
  denies : Int
  gold_per_min : Int
  xp_per_min : Int
  gold_spent : Int
  hero_damage : Int
  tower_damage : Int
  hero_healing : Int
  level : Int
  ability_upgrades : Option String
  additional_units : Option String
deriving DecidableEq

/-- Row of the `MatchDetailsPlayerEntry` table (models.py lines 350-378);
foreign keys embedded as the referenced primary-key values. -/
structure MatchDetailsPlayerEntry where
  match_details : Int
  account_id_id : Option Int
  player_slot : Int
  hero_id_id : Int
  item_0_id : Int
  item_1_id : Int
  item_2_id : Int
  item_3_id : Int
  item_4_id : Int
  item_5_id : Int
  kills : Int
  deaths : Int
  assists : Int
  leaver_status : Option Int
  gold : Int
  last_hits : Int
  denies : Int
  gold_per_min : Int
  xp_per_min : Int
  gold_spent : Int
  hero_damage : Int
  tower_damage : Int
  hero_healing : Int
  level : Int
  ability_upgrades : Option String
  additional_units : Option String
  is_bot : Bool
deriving DecidableEq

/-- `MatchDetailsPlayerEntry.from_json_response` (models.py lines 383-414):
a record with `hero_id = 0` designates an empty player slot and yields no
row; otherwise a row is built, with `is_bot` true exactly when `account_id`
is absent or `leaver_status` is absent. -/
def MatchDetailsPlayerEntry.from_json_response (match_details : Int)
    (json : PlayerDetailJson) : Option MatchDetailsPlayerEntry :=
  if json.hero_id = 0 then none
  else some
    { match_details := match_details
      account_id_id := steamapi.convertAccountNumbertoSteam64 json.account_id
      player_slot := json.player_slot
      hero_id_id := json.hero_id
      item_0_id := json.item_0
      item_1_id := json.item_1
      item_2_id := json.item_2
      item_3_id := json.item_3
      item_4_id := json.item_4
      item_5_id := json.item_5
      kills := json.kills
      deaths := json.deaths
      assists := json.assists
      leaver_status := json.leaver_status
      gold := json.gold
      last_hits := json.last_hits
      denies := json.denies
      gold_per_min := json.gold_per_min
      xp_per_min := json.xp_per_min
      gold_spent := json.gold_spent
      hero_damage := json.hero_damage
      tower_damage := json.tower_damage
      hero_healing := json.hero_healing
      level := json.level
      ability_upgrades := json.ability_upgrades
      additional_units := json.additional_units
      is_bot := if json.account_id = none ∨ json.leaver_status = none then true else false }

/-- The `MatchSequenceNumber` table (models.py lines 420-433), embedded as a
list of (primary key, `last_match_seq_num`) rows. -/
abbrev CursorDB := List (Nat × Int)

/-- Lookup by primary key (Django `objects.get(pk = k)` on this table). -/
def dbFind (db : CursorDB) (pk : Nat) : Option Int :=
  (db.find? (fun r => r.fst == pk)).map (fun r => r.snd)

/-- Django `Model(pk = k, ...).save()`: update the row with this primary key
when it exists, insert it otherwise. -/
def dbSave (pk : Nat) (v : Int) : CursorDB → CursorDB
  | [] => [(pk, v)]
  | r :: t => if r.fst = pk then (pk, v) :: t else r :: dbSave pk v t

/-- `MatchSequenceNumber.get_last_match_seq_num` (models.py lines 425-428):
`get_or_create(pk=1)` and read `last_match_seq_num`, whose model default is
0. Returns the value read and the (possibly extended) table. -/
def MatchSequenceNumber.get_last_match_seq_num (db : CursorDB) : Int × CursorDB :=
  match dbFind db 1 with
  | some v => (v, db)
  | none => (0, dbSave 1 0 db)

/-- `MatchSequenceNumber.set_last_match_seq_num` (models.py lines 430-433):
save a row with `pk = 1` holding the new value. -/
def MatchSequenceNumber.set_last_match_seq_num (v : Int) (db : CursorDB) : CursorDB :=
  dbSave 1 v db

/-- A client-visible operation on the sequence-cursor table. -/
inductive CursorOp where
  | read : CursorOp
  | write : Int → CursorOp
deriving DecidableEq

/-- Run a sequence of cursor operations against the table. -/
def runCursorOps : List CursorOp → CursorDB → CursorDB
  | [], db => db
  | CursorOp.read :: ops, db => runCursorOps ops (MatchSequenceNumber.get_last_match_seq_num db).snd
  | CursorOp.write v :: ops, db => runCursorOps ops (MatchSequenceNumber.set_last_match_seq_num v db)

/-! ### Helper lemmas -/

/-- Saving a row makes it the one found under its primary key. -/
theorem dbFind_dbSave (pk : Nat) (v : Int) (db : CursorDB) :
    dbFind (dbSave pk v db) pk = some v := by
  induction db with
  | nil => simp [dbSave, dbFind]
  | cons r t ih =>
    by_cases h : r.fst = pk
    · simp [dbSave, h, dbFind]
    · simp only [dbSave, if_neg h]
      unfold dbFind
      rw [List.find?_cons_of_neg _ (by simpa using h)]
      exact ih

/-- Any run of cursor operations from the empty table leaves either no row or
exactly the row with primary key 1. -/
theorem runCursorOps_invariant (ops : List CursorOp) (db : CursorDB)
    (h : db = [] ∨ ∃ v, db = [(1, v)]) :
    runCursorOps ops db = [] ∨ ∃ v, runCursorOps ops db = [(1, v)] := by
  induction ops generalizing db with
  | nil => simpa [runCursorOps] using h
  | cons op ops ih =>
    cases op with
    | read =>
      rcases h with h | ⟨v, h⟩
      · subst h; exact ih _ (Or.inr ⟨0, rfl⟩)
      · subst h; exact ih _ (Or.inr ⟨v, rfl⟩)
    | write w =>
      rcases h with h | ⟨v, h⟩
      · subst h; exact ih _ (Or.inr ⟨w, rfl⟩)
      · subst h; exact ih _ (Or.inr ⟨w, rfl⟩)

/-! ### Claim theorems -/

/-- C7: the Match Sequence Cursor is a singleton: a read before any write
returns the default 0; a read right after writing v returns v; and any
sequence of reads and writes starting from the empty table leaves at most
one row. -/
theorem MatchSequenceNumber.singleton_cursor_spec :
    (MatchSequenceNumber.get_last_match_seq_num []).fst = 0
    ∧ (∀ (v : Int) (db : CursorDB),
        (MatchSequenceNumber.get_last_match_seq_num
          (MatchSequenceNumber.set_last_match_seq_num v db)).fst = v)
    ∧ (∀ ops : List CursorOp, (runCursorOps ops []).length ≤ 1) := by
  refine ⟨rfl, fun v db => ?_, fun ops => ?_⟩
  · unfold MatchSequenceNumber.get_last_match_seq_num MatchSequenceNumber.set_last_match_seq_num
    rw [dbFind_dbSave]
  · rcases runCursorOps_invariant ops [] (Or.inl rfl) with h | ⟨v, h⟩ <;> simp [h]

/-- C5: the Identity Resolver round-trips every 32-bit account number, and an
absent account number converts to an absent identity, never to zero. -/
theorem steamapi.roundtrip_spec :
    (∀ a : Int, 0 ≤ a → a < 4294967296 →
      steamapi.convertSteam64toAccountNumber (steamapi.convertAccountNumbertoSteam64 (some a)) = some a)
    ∧ steamapi.convertAccountNumbertoSteam64 none = none
    ∧ steamapi.convertAccountNumbertoSteam64 none ≠ some 0 := by
  refine ⟨fun a _ _ => ?_, rfl, by simp [steamapi.convertAccountNumbertoSteam64]⟩
  simp [steamapi.convertAccountNumbertoSteam64, steamapi.convertSteam64toAccountNumber]

/-- C5 witness: the round trip at the concrete account number 7. -/
theorem steamapi.roundtrip_spec_witness :
    steamapi.convertSteam64toAccountNumber (steamapi.convertAccountNumbertoSteam64 (some 7)) = some 7 :=
  steamapi.roundtrip_spec.1 7 (by decide) (by decide)

/-- C6: for every detail record the constructor accepts (nonzero hero id),
the built entry's bot flag is true exactly when the record's account id is
absent or its leaver status is absent. -/
theorem MatchDetailsPlayerEntry.is_bot_spec (match_details : Int) (json : PlayerDetailJson)
    (h : json.hero_id ≠ 0) :
    ∃ e, MatchDetailsPlayerEntry.from_json_response match_details json = some e
      ∧ (e.is_bot = true ↔ (json.account_id = none ∨ json.leaver_status = none)) := by
  unfold MatchDetailsPlayerEntry.from_json_response
  rw [if_neg h]
  refine ⟨_, rfl, ?_⟩
  by_cases hc : json.account_id = none ∨ json.leaver_status = none <;> simp [hc]

/-- A concrete accepted detail record: hero 5, no account id, leaver status
present. -/
def sampleDetailJson : PlayerDetailJson :=
  { account_id := none, player_slot := 0, hero_id := 5
    item_0 := 0, item_1 := 0, item_2 := 0, item_3 := 0, item_4 := 0, item_5 := 0
    kills := 1, deaths := 2, assists := 3, leaver_status := some 0
    gold := 4, last_hits := 5, denies := 6, gold_per_min := 7, xp_per_min := 8
    gold_spent := 9, hero_damage := 10, tower_damage := 11, hero_healing := 12
    level := 13, ability_upgrades := none, additional_units := none }

/-- C6 witness: the bot-flag equivalence at a concrete record. -/
theorem MatchDetailsPlayerEntry.is_bot_spec_witness :
    ∃ e, MatchDetailsPlayerEntry.from_json_response 9 sampleDetailJson = some e
      ∧ (e.is_bot = true ↔ (sampleDetailJson.account_id = none ∨ sampleDetailJson.leaver_status = none)) :=
  MatchDetailsPlayerEntry.is_bot_spec 9 sampleDetailJson (by decide)

/-- C10: for every discovery-summary participant record, the constructed
participant's bot flag is true exactly when the record's account id is
absent; the record carries no leaver status at all. -/
theorem MatchHistoryQueuePlayers.queue_is_bot_spec (q : Int) (json : QueuePlayerJson) :
    ((MatchHistoryQueuePlayers.from_json_response q json).is_bot = true ↔ json.account_id = none) := by
  by_cases h : json.account_id = none <;> simp [MatchHistoryQueuePlayers.from_json_response, h]

/-- C3 counterexample: a discovery-summary participant record whose hero slot
id is 0 is not dropped by `MatchHistoryQueuePlayers.from_json_response`: a
participant row with hero id 0 is constructed and stored. -/
theorem MatchHistoryQueuePlayers.hero0_counterexample :
    MatchHistoryQueuePlayers.from_json_response 1 { account_id := some 42, player_slot := 2, hero_id := 0 } =
      { match_history_queue := 1, account_id_id := some 76561197960265770
        player_slot := 2, hero_id_id := 0, is_bot := false } := by
  decide

/-- C3 amended: `MatchDetailsPlayerEntry.from_json_response` drops every
record with hero id 0, while `MatchHistoryQueuePlayers.from_json_response`
always builds a row carrying the record's hero id unchanged, 0 included. -/
theorem hero0_handling_spec :
    (∀ (md : Int) (json : PlayerDetailJson), json.hero_id = 0 →
      MatchDetailsPlayerEntry.from_json_response md json = none)
    ∧ (∀ (q : Int) (json : QueuePlayerJson),
        (MatchHistoryQueuePlayers.from_json_response q json).hero_id_id = json.hero_id) := by
  refine ⟨fun md json h => ?_, fun q json => rfl⟩
  simp [MatchDetailsPlayerEntry.from_json_response, h]

/-- C3 amended witness: the detail constructor at a concrete record with hero
id 0 yields no row. -/
theorem hero0_handling_spec_witness :
    MatchDetailsPlayerEntry.from_json_response 9 { sampleDetailJson with hero_id := 0 } = none :=
  hero0_handling_spec.1 9 { sampleDetailJson with hero_id := 0 } (by decide)

/-- C8: `get_game_type` maps codes 1 through 13 to their human labels and
every other code to its decimal string. -/
theorem get_game_type_spec :
    (get_game_type 1 = "All Pick" ∧ get_game_type 2 = "Captain's Mode"
      ∧ get_game_type 3 = "Random Draft" ∧ get_game_type 4 = "Single Draft"
      ∧ get_game_type 5 = "All Random" ∧ get_game_type 6 = "Death Mode"
      ∧ get_game_type 7 = "Diretide" ∧ get_game_type 8 = "Reverse Captain's Mode"
      ∧ get_game_type 9 = "The Greeviling" ∧ get_game_type 10 = "Tutorial"
      ∧ get_game_type 11 = "Mid Only" ∧ get_game_type 12 = "Least Played"
      ∧ get_game_type 13 = "New Player Pool")
    ∧ (∀ g : Int, g < 1 ∨ 13 < g → get_game_type g = toString g) := by
  refine ⟨⟨rfl, rfl, rfl, rfl, rfl, rfl, rfl, rfl, rfl, rfl, rfl, rfl, rfl⟩, fun g hg => ?_⟩
  have h1 : ¬ (g = 1) := by omega
  have h2 : ¬ (g = 2) := by omega
  have h3 : ¬ (g = 3) := by omega
  have h4 : ¬ (g = 4) := by omega
  have h5 : ¬ (g = 5) := by omega
  have h6 : ¬ (g = 6) := by omega
  have h7 : ¬ (g = 7) := by omega
  have h8 : ¬ (g = 8) := by omega
  have h9 : ¬ (g = 9) := by omega
  have h10 : ¬ (g = 10) := by omega
  have h11 : ¬ (g = 11) := by omega
  have h12 : ¬ (g = 12) := by omega
  have h13 : ¬ (g = 13) := by omega
  simp [get_game_type, h1, h2, h3, h4, h5, h6, h7, h8, h9, h10, h11, h12, h13]

/-- C8 witness: the unknown code 99 renders as its decimal string. -/
theorem get_game_type_spec_witness : get_game_type 99 = "99" :=
  get_game_type_spec.2 99 (Or.inr (by decide))

/-- C9 counterexample: `get_lobby_type 0` is the string "Public Match", not
the spec's label "Public". -/
theorem get_lobby_type_label_counterexample :
    get_lobby_type 0 = "Public Match" ∧ ("Public Match" : String) ≠ "Public" :=
  ⟨rfl, by decide⟩

/-- C9 amended: `get_lobby_type` maps 0 to "Public Match", 1 to
"Practice Match", 2 to "Tournament Match", 3 to "Tutorial", 4 to
"Co-op Bot Match", 5 to "Team Match", and every code outside 0..5 to its
decimal string. -/
theorem get_lobby_type_spec :
    (get_lobby_type 0 = "Public Match" ∧ get_lobby_type 1 = "Practice Match"
      ∧ get_lobby_type 2 = "Tournament Match" ∧ get_lobby_type 3 = "Tutorial"
      ∧ get_lobby_type 4 = "Co-op Bot Match" ∧ get_lobby_type 5 = "Team Match")
    ∧ (∀ t : Int, t < 0 ∨ 5 < t → get_lobby_type t = toString t) := by
  refine ⟨⟨rfl, rfl, rfl, rfl, rfl, rfl⟩, fun t ht => ?_⟩
  have h0 : ¬ (t = 0) := by omega
  have h1 : ¬ (t = 1) := by omega
  have h2 : ¬ (t = 2) := by omega
  have h3 : ¬ (t = 3) := by omega
  have h4 : ¬ (t = 4) := by omega
  have h5 : ¬ (t = 5) := by omega
  simp [get_lobby_type, h0, h1, h2, h3, h4, h5]

/-- C9 amended witness: the unknown code 7 renders as its decimal string. -/
theorem get_lobby_type_spec_witness : get_lobby_type 7 = "7" :=
  get_lobby_type_spec.2 7 (Or.inr (by decide))

/-- C1: `SteamPlayer.get_refresh` returns only stored rows whose
`last_refresh` is older than now minus the player TTL, ordered oldest-first,
capped at 100; when at most 100 rows are due it returns every due row, and it
returns the empty list when no row is due. -/
theorem SteamPlayer.get_refresh_spec (rows : List SteamPlayer) (now ttl : Int) :
    (∀ p ∈ SteamPlayer.get_refresh rows now ttl, p ∈ rows ∧ p.last_refresh < now - ttl)
    ∧ List.Sorted playerLe (SteamPlayer.get_refresh rows now ttl)
    ∧ (SteamPlayer.get_refresh rows now ttl).length ≤ 100
    ∧ ((rows.filter (fun p => decide (p.last_refresh < now - ttl))).length ≤ 100 →
        ∀ p ∈ rows, p.last_refresh < now - ttl → p ∈ SteamPlayer.get_refresh rows now ttl)
    ∧ ((∀ p ∈ rows, ¬ p.last_refresh < now - ttl) → SteamPlayer.get_refresh rows now ttl = []) := by
  have hperm := List.perm_insertionSort playerLe
    (rows.filter (fun p => decide (p.last_refresh < now - ttl)))
  refine ⟨?_, ?_, ?_, ?_, ?_⟩
  · intro p hp
    have hp2 := hperm.mem_iff.mp (List.mem_of_mem_take hp)
    rw [List.mem_filter] at hp2
    exact ⟨hp2.1, by simpa using hp2.2⟩
  · exact (List.sorted_insertionSort playerLe _).sublist (List.take_sublist _ _)
  · exact List.length_take_le _ _
  · intro hlen p hp hstale
    have hmem : p ∈ rows.filter (fun p => decide (p.last_refresh < now - ttl)) := by
      rw [List.mem_filter]
      exact ⟨hp, by simpa using hstale⟩
    have hslen : ((rows.filter (fun p => decide (p.last_refresh < now - ttl))).insertionSort
        playerLe).length ≤ 100 := by
      rw [hperm.length_eq]
      exact hlen
    unfold SteamPlayer.get_refresh
    rw [List.take_of_length_le hslen]
    exact hperm.mem_iff.mpr hmem
  · intro hfresh
    have hnil : rows.filter (fun p => decide (p.last_refresh < now - ttl)) = [] := by
      rw [List.filter_eq_nil_iff]
      intro p hp
      simpa using hfresh p hp
    unfold SteamPlayer.get_refresh
    rw [hnil]
    rfl

/-- A stale player used by the C1 witness. -/
def samplePlayer1 : SteamPlayer := ⟨1, 99, "a", "", "", "", "", none⟩

/-- A fresher player used by the C1 witness. -/
def samplePlayer2 : SteamPlayer := ⟨2, 0, "b", "", "", "", "", none⟩

/-- C1 witness: with two stored players and only one due, the due player is
returned. -/
theorem SteamPlayer.get_refresh_spec_witness :
    samplePlayer2 ∈ SteamPlayer.get_refresh [samplePlayer1, samplePlayer2] 100 10 :=
  (SteamPlayer.get_refresh_spec [samplePlayer1, samplePlayer2] 100 10).2.2.2.1 (by decide)
    samplePlayer2 (by decide) (by decide)

/-- C2: `MatchDetails.get_refresh` returns `none` exactly when no stored
match is older than now minus the match TTL, and when it returns a match,
that match is a stored stale row with the globally smallest `last_refresh`
among the stale rows. -/
theorem MatchDetails.next_refresh_spec (rows : List MatchDetails) (now ttl : Int) :
    (MatchDetails.get_refresh rows now ttl = none ↔ ∀ m ∈ rows, ¬ m.last_refresh < now - ttl)
    ∧ (∀ m, MatchDetails.get_refresh rows now ttl = some m →
        m ∈ rows ∧ m.last_refresh < now - ttl
          ∧ ∀ m2 ∈ rows, m2.last_refresh < now - ttl → m.last_refresh ≤ m2.last_refresh) := by
  have hperm := List.perm_insertionSort matchLe
    (rows.filter (fun m => decide (m.last_refresh < now - ttl)))
  have hsort := List.sorted_insertionSort matchLe
    (rows.filter (fun m => decide (m.last_refresh < now - ttl)))
  constructor
  · constructor
    · intro hnone m hm hstale
      cases hs : (rows.filter (fun m => decide (m.last_refresh < now - ttl))).insertionSort matchLe with
      | nil =>
        rw [hs] at hperm
        have hnil := hperm.symm.eq_nil
        have hmem : m ∈ rows.filter (fun m => decide (m.last_refresh < now - ttl)) := by
          rw [List.mem_filter]
          exact ⟨hm, by simpa using hstale⟩
        rw [hnil] at hmem
        simp at hmem
      | cons a t =>
        unfold MatchDetails.get_refresh at hnone
        rw [hs] at hnone
        simp at hnone
    · intro hfresh
      have hnil : rows.filter (fun m => decide (m.last_refresh < now - ttl)) = [] := by
        rw [List.filter_eq_nil_iff]
        intro m hm
        simpa using hfresh m hm
      unfold MatchDetails.get_refresh
      rw [hnil]
      rfl
  · intro m hsome
    unfold MatchDetails.get_refresh at hsome
    cases hs : (rows.filter (fun m => decide (m.last_refresh < now - ttl))).insertionSort matchLe with
    | nil =>
      rw [hs] at hsome
      simp at hsome
    | cons a t =>
      rw [hs] at hsome
      simp only [List.head?_cons, Option.some.injEq] at hsome
      subst hsome
      rw [hs] at hperm hsort
      have hm : a ∈ rows.filter (fun m => decide (m.last_refresh < now - ttl)) :=
        hperm.mem_iff.mp (List.mem_cons_self a t)
      rw [List.mem_filter] at hm
      refine ⟨hm.1, by simpa using hm.2, ?_⟩
      intro m2 hm2 hstale2
      have hm2f : m2 ∈ rows.filter (fun m => decide (m.last_refresh < now - ttl)) := by
        rw [List.mem_filter]
        exact ⟨hm2, by simpa using hstale2⟩
      have hm2s := hperm.mem_iff.mpr hm2f
      rcases List.mem_cons.mp hm2s with h | h
      · rw [h]
      · exact List.rel_of_sorted_cons hsort m2 h

/-- A stale match used by the C2 and C4 witnesses: 10 human players,
duration 481, public lobby, towers not fully intact. -/
def sampleMatch1 : MatchDetails := ⟨1, 50, 11, 0, true, 481, 0, 1, 1, 0, 0, 0, 0, 0, 10, 0, 0, 0, 1⟩

/-- A staler match used by the C2 witness. -/
def sampleMatch2 : MatchDetails := ⟨2, 5, 12, 0, false, 500, 0, 1, 1, 0, 0, 0, 0, 0, 10, 0, 0, 0, 1⟩

/-- C2 witness: with two stale stored matches, the returned one is a stored
stale row. -/
theorem MatchDetails.next_refresh_spec_witness :
    sampleMatch2 ∈ [sampleMatch1, sampleMatch2] ∧ sampleMatch2.last_refresh < 100 - 10 :=
  let h := (MatchDetails.next_refresh_spec [sampleMatch1, sampleMatch2] 100 10).2
    sampleMatch2 (by decide)
  ⟨h.1, h.2.1⟩

/-- C4: a stored match is kept by `MatchDetails.exclude_low_priority` exactly
when none of the low-priority conditions holds (lobby type 4, fewer than 10
human players, duration under 480 seconds, both tower masks 2047); in
particular a 10-player, 481-second, public-lobby match with towers not both
2047 is retained, and every match of duration 479 is excluded. -/
theorem MatchDetails.exclude_low_priority_spec (rows : List MatchDetails) :
    (∀ m : MatchDetails, m ∈ MatchDetails.exclude_low_priority rows ↔
        m ∈ rows ∧ ¬ (m.lobby_type = 4 ∨ m.human_players < 10 ∨ m.duration < 480
          ∨ (m.tower_status_radiant = 2047 ∧ m.tower_status_dire = 2047)))
    ∧ (∀ m ∈ rows, m.human_players = 10 → m.duration = 481 → m.lobby_type = 0 →
        ¬ (m.tower_status_radiant = 2047 ∧ m.tower_status_dire = 2047) →
        m ∈ MatchDetails.exclude_low_priority rows)
    ∧ (∀ m : MatchDetails, m.duration = 479 → m ∉ MatchDetails.exclude_low_priority rows) := by
  have key : ∀ m : MatchDetails, ((! m.low_priority) = true) ↔
      ¬ (m.lobby_type = 4 ∨ m.human_players < 10 ∨ m.duration < 480
        ∨ (m.tower_status_radiant = 2047 ∧ m.tower_status_dire = 2047)) := by
    intro m
    simp only [MatchDetails.low_priority, Bool.not_eq_true', Bool.or_eq_false_iff,
      Bool.and_eq_false_iff, decide_eq_false_iff_not, not_or]
    tauto
  have hmem : ∀ m : MatchDetails, m ∈ MatchDetails.exclude_low_priority rows ↔
      m ∈ rows ∧ ¬ (m.lobby_type = 4 ∨ m.human_players < 10 ∨ m.duration < 480
        ∨ (m.tower_status_radiant = 2047 ∧ m.tower_status_dire = 2047)) := by
    intro m
    simp only [MatchDetails.exclude_low_priority, List.mem_filter]
    rw [key m]
  refine ⟨hmem, ?_, ?_⟩
  · intro m hm h10 h481 h0 htow
    rw [hmem m]
    refine ⟨hm, ?_⟩
    rw [not_or, not_or, not_or]
    exact ⟨by omega, by omega, by omega, htow⟩
  · intro m h479 hin
    rw [hmem m] at hin
    exact hin.2 (Or.inr (Or.inr (Or.inl (by omega))))

/-- C4 witness: the concrete retained match of the claim. -/
theorem MatchDetails.exclude_low_priority_spec_witness :
    sampleMatch1 ∈ MatchDetails.exclude_low_priority [sampleMatch1] :=
  (MatchDetails.exclude_low_priority_spec [sampleMatch1]).2.1 sampleMatch1 (by decide)
    rfl rfl rfl (by decide)
